import Mathlib

/-!
Verification development for the canvas-builder repository.

The shallow embedding below translates the interactive editing core of the
frontend (the `InteractiveCanvas` components and the history state of
`page.tsx`) and the export endpoint of `backend/server.js` into Lean.
Pointer coordinates and element geometry are JavaScript numbers; they are
modelled as exact rationals, which is faithful for every claim considered
here (no claim depends on floating-point rounding).  The one irrational
operation, `Math.sqrt` in the circle-radius computation, is abstracted as a
function parameter because no claim depends on its value.
-/

namespace CanvasBuilder

/-- A surface point, as in the `Point` type of `InteractiveCanvas`. -/
structure Point where
  x : ℚ
  y : ℚ
deriving DecidableEq

/-- The `CanvasElement` tagged union of `InteractiveCanvas`:
rect, circle, text, image and path variants with the exact field lists of
the source. -/
inductive CanvasElement where
  | rect (x y width height : ℚ) (color : String)
  | circle (x y radius : ℚ) (color : String)
  | text (x y : ℚ) (content : String) (fontSize : ℚ) (color : String)
  | image (x y width height : ℚ) (src : String)
  | path (points : List Point) (color : String) (strokeWidth : ℚ)
deriving DecidableEq

/-- The active tool selector of the UI. -/
inductive Tool where
  | select | rect | circle | text | image | pencil | eraser
deriving DecidableEq

/-! ## History manager (frontend/src/app/page.tsx) -/

/-- The history-related state of the `Home` component in `page.tsx`:
`elements`, `history` and `historyIndex`. -/
structure PageState where
  elements : List CanvasElement
  history : List (List CanvasElement)
  historyIndex : ℕ
deriving DecidableEq

/-- `addToHistory` of page.tsx: slice the history up to the cursor
(inclusive), push the new snapshot, move the cursor to the last index and
replace the live elements. -/
def addToHistory (newElements : List CanvasElement) (st : PageState) : PageState :=
  let newHistory := st.history.take (st.historyIndex + 1) ++ [newElements]
  { elements := newElements
    history := newHistory
    historyIndex := newHistory.length - 1 }

/-- `handleAddElement` of page.tsx: append the new element and commit. -/
def handleAddElement (newEl : CanvasElement) (st : PageState) : PageState :=
  addToHistory (st.elements ++ [newEl]) st

/-- `handleRemoveElement` of page.tsx: drop the element at the index
(`filter` on the index) and commit. -/
def handleRemoveElement (index : ℕ) (st : PageState) : PageState :=
  addToHistory (st.elements.eraseIdx index) st

/-- `handleUndo` of page.tsx: if the cursor is positive, decrement it and
load that snapshot; otherwise do nothing. -/
def handleUndo (st : PageState) : PageState :=
  if 0 < st.historyIndex then
    { st with historyIndex := st.historyIndex - 1
              elements := st.history.getD (st.historyIndex - 1) [] }
  else st

/-- `handleRedo` of page.tsx: if the cursor is before the last index,
increment it and load that snapshot; otherwise do nothing. -/
def handleRedo (st : PageState) : PageState :=
  if st.historyIndex < st.history.length - 1 then
    { st with historyIndex := st.historyIndex + 1
              elements := st.history.getD (st.historyIndex + 1) [] }
  else st

/-- The `canUndo` prop computed in page.tsx: `historyIndex > 0`. -/
def canUndo (st : PageState) : Bool :=
  decide (0 < st.historyIndex)

/-- The `canRedo` prop computed in page.tsx:
`historyIndex < history.length - 1`. -/
def canRedo (st : PageState) : Bool :=
  decide (st.historyIndex < st.history.length - 1)

/-- The `onElementUpdate` prop wired in page.tsx: overwrite the element at
the index in the live elements array.  Note that it does not touch
`history` or `historyIndex`. -/
def onElementUpdate (index : ℕ) (newEl : CanvasElement) (st : PageState) : PageState :=
  { st with elements := st.elements.set index newEl }

/-- An undo or redo request from the UI. -/
inductive HistOp where
  | undo | redo
deriving DecidableEq

/-- Apply one undo/redo request. -/
def applyHistOp : HistOp → PageState → PageState
  | HistOp.undo => handleUndo
  | HistOp.redo => handleRedo

/-- Apply a sequence of undo/redo requests. -/
def runHistOps : List HistOp → PageState → PageState
  | [], st => st
  | op :: ops, st => runHistOps ops (applyHistOp op st)

/-! ## Hit testing (raw-canvas InteractiveCanvas) -/

/-- Squared Euclidean distance between two points. -/
def dist2 (p q : Point) : ℚ :=
  (p.x - q.x) ^ 2 + (p.y - q.y) ^ 2

/-- Distance from `p` to the segment from `a` to `b` is at most `m`.
Computed with squared comparisons (for a nonnegative real distance d,
d ≤ m holds iff 0 ≤ m and d^2 ≤ m^2), so the definition stays inside ℚ. -/
def segDistWithin (p a b : Point) (m : ℚ) : Bool :=
  let dx := b.x - a.x
  let dy := b.y - a.y
  let len2 := dx ^ 2 + dy ^ 2
  if len2 = 0 then
    decide (0 ≤ m ∧ dist2 p a ≤ m ^ 2)
  else
    let t := ((p.x - a.x) * dx + (p.y - a.y) * dy) / len2
    let tc := max 0 (min 1 t)
    decide (0 ≤ m ∧ dist2 p ⟨a.x + tc * dx, a.y + tc * dy⟩ ≤ m ^ 2)

/-- The segments traced by the path hit test in the source: it calls
`moveTo(points[0])` and then `lineTo(p)` for every point of the list
(so the first point is revisited by a degenerate first segment). -/
def polySegs : List Point → List (Point × Point)
  | [] => []
  | p :: ps => List.zip (p :: p :: ps) (p :: ps)

/-- Model of `ctx.isPointInStroke` on the polyline traced from the points
with the given `lineWidth` and round caps and joins: the point hits the
stroke iff its distance to some traced segment is at most half the line
width.  The source guards the tracing with `points.length > 0`; an empty
point list therefore never hits. -/
def isPointInStroke (lineWidth : ℚ) (p : Point) (points : List Point) : Bool :=
  (polySegs points).any (fun ab => segDistWithin p ab.1 ab.2 (lineWidth / 2))

/-- The rect/image branch of the hit test in `handleMouseDown` (both the
select and the eraser loop): normalize negative width/height, then a
point-in-box comparison. -/
def boxHit (pos : Point) (x y w h : ℚ) : Bool :=
  let nx := if w < 0 then x + w else x
  let ny := if h < 0 then y + h else y
  decide (nx ≤ pos.x ∧ pos.x ≤ nx + |w| ∧ ny ≤ pos.y ∧ pos.y ≤ ny + |h|)

/-- The per-element hit logic shared (by textual duplication in the
source) between the select and eraser loops of `handleMouseDown`.
`pathPad` is the padding the tool adds to the stroke width before calling
`isPointInStroke`: 10 in the select loop, 5 in the eraser loop.
The circle branch compares the Euclidean distance from the center with the
radius (rendered here with squared comparisons); the text branch uses the
`fontSize * text.length * 0.6` width heuristic and the
`[y - fontSize, y]` vertical extent. -/
def hitElement (pathPad : ℚ) (pos : Point) (el : CanvasElement) : Bool :=
  match el with
  | CanvasElement.rect x y w h _ => boxHit pos x y w h
  | CanvasElement.image x y w h _ => boxHit pos x y w h
  | CanvasElement.circle x y r _ =>
      decide (0 ≤ r ∧ dist2 pos ⟨x, y⟩ ≤ r ^ 2)
  | CanvasElement.text x y content fontSize _ =>
      decide (x ≤ pos.x ∧ pos.x ≤ x + fontSize * (content.length : ℚ) * (3 / 5)
        ∧ pos.y ≤ y ∧ y - fontSize ≤ pos.y)
  | CanvasElement.path pts _ sw => isPointInStroke (sw + pathPad) pos pts

/-- `HANDLE_SIZE` of the raw-canvas component. -/
def HANDLE_SIZE : ℚ := 8

/-- Membership test for one square handle zone in `getResizeHandle`:
`x >= h.x - HANDLE_SIZE && x <= h.x + HANDLE_SIZE` and the same in y. -/
def inHandleZone (x y hx hy : ℚ) : Bool :=
  decide (hx - HANDLE_SIZE ≤ x ∧ x ≤ hx + HANDLE_SIZE
    ∧ hy - HANDLE_SIZE ≤ y ∧ y ≤ hy + HANDLE_SIZE)

/-- The zone scan of `getResizeHandle` over the four corners of the box
with top-left `(ex, ey)` and extents `(w, h)`, in the source order
nw, ne, sw, se. -/
def resizeHandleOfBox (x y ex ey w h : ℚ) : Option String :=
  let right := ex + w
  let bottom := ey + h
  if inHandleZone x y ex ey then some "nw"
  else if inHandleZone x y right ey then some "ne"
  else if inHandleZone x y ex bottom then some "sw"
  else if inHandleZone x y right bottom then some "se"
  else none

/-- `getResizeHandle` of the raw-canvas component: no handles for path and
text; for rect and image the corners come from `x, y, width, height`; for
circle the source computes `right = x + radius * 2` and
`bottom = y + radius * 2`, that is, it treats `x, y` as the top-left of
the bounding box. -/
def getResizeHandle (x y : ℚ) (el : CanvasElement) : Option String :=
  match el with
  | CanvasElement.path _ _ _ => none
  | CanvasElement.text _ _ _ _ _ => none
  | CanvasElement.rect ex ey w h _ => resizeHandleOfBox x y ex ey w h
  | CanvasElement.image ex ey w h _ => resizeHandleOfBox x y ex ey w h
  | CanvasElement.circle ex ey r _ => resizeHandleOfBox x y ex ey (r * 2) (r * 2)

/-! ## Manipulation state machine (raw-canvas InteractiveCanvas) -/

/-- The `editingText` state of the raw-canvas component:
position and current input buffer. -/
structure EditingTextState where
  x : ℚ
  y : ℚ
  value : String
deriving DecidableEq

/-- The combined state of the raw-canvas `InteractiveCanvas` component and
the page that hosts it.  `page` carries `elements`, `history` and
`historyIndex` of page.tsx; the remaining fields are the `useState` hooks
of the component. -/
structure RawCanvasState where
  page : PageState
  isDrawing : Bool
  isDragging : Bool
  isResizing : Option String
  startPos : Option Point
  currentPos : Option Point
  currentPath : List Point
  editingText : Option EditingTextState
  selectedIndex : Option ℕ
  initialElementState : Option CanvasElement
deriving DecidableEq

/-- The backwards object-hit scan of `handleMouseDown`: iterate from the
last element down to index 0 and return the first (topmost) hit index. -/
def topmostHit (pathPad : ℚ) (pos : Point) (els : List CanvasElement) : Option ℕ :=
  ((els.enum.reverse.find? (fun ie => hitElement pathPad pos ie.2)).map Prod.fst)

/-- The select-tool object-hit phase of `handleMouseDown`: on a hit, select
the index, start dragging and record the anchor and the original element;
on a miss, clear the selection. -/
def rawSelectHitPhase (pos : Point) (st : RawCanvasState) : RawCanvasState :=
  match topmostHit 10 pos st.page.elements with
  | some i =>
      { st with selectedIndex := some i
                isDragging := true
                startPos := some pos
                initialElementState := st.page.elements.get? i }
  | none => { st with selectedIndex := none }

/-- `handleMouseDown` of the raw-canvas component.  The select branch
checks the resize handles of the currently selected element first, then
scans for an object hit; the eraser branch removes the topmost hit element
(its path branch uses `strokeWidth + 5` instead of the select loop's
`strokeWidth + 10`); the drawing branches start a drawing gesture.  The
image branch consults the out-of-band `prompt` result, passed here as the
`promptUrl` parameter. -/
def rawMouseDown (tool : Tool) (promptUrl : Option String) (pos : Point)
    (st : RawCanvasState) : RawCanvasState :=
  match tool with
  | Tool.select =>
      match st.selectedIndex with
      | some i =>
          match st.page.elements.get? i with
          | some el =>
              match getResizeHandle pos.x pos.y el with
              | some h =>
                  { st with isResizing := some h
                            startPos := some pos
                            initialElementState := some el }
              | none => rawSelectHitPhase pos st
          | none => rawSelectHitPhase pos st
      | none => rawSelectHitPhase pos st
  | Tool.eraser =>
      match topmostHit 5 pos st.page.elements with
      | some i => { st with page := handleRemoveElement i st.page }
      | none => st
  | _ =>
      let st1 := { st with isDrawing := true, startPos := some pos, currentPos := some pos }
      match tool with
      | Tool.pencil => { st1 with currentPath := [pos] }
      | Tool.text =>
          { st1 with editingText := some ⟨pos.x, pos.y, ""⟩, isDrawing := false }
      | Tool.image =>
          match promptUrl with
          | some url =>
              let el := CanvasElement.image pos.x pos.y 150 150 url
              { st1 with page := handleAddElement el st1.page, isDrawing := false }
          | none => st1
      | _ => st1

/-- The drag update of `handleMouseMove`: the object spread
`\x7b ...initialElementState, x: x + dx, y: y + dy \x7d`.  For a path the
spread only attaches extra `x`/`y` properties that no consumer reads, so
the drawn geometry is unchanged; every other variant gets its `x`/`y`
fields shifted and keeps all other fields. -/
def dragElement (el : CanvasElement) (dx dy : ℚ) : CanvasElement :=
  match el with
  | CanvasElement.rect x y w h c => CanvasElement.rect (x + dx) (y + dy) w h c
  | CanvasElement.circle x y r c => CanvasElement.circle (x + dx) (y + dy) r c
  | CanvasElement.text x y t f c => CanvasElement.text (x + dx) (y + dy) t f c
  | CanvasElement.image x y w h s => CanvasElement.image (x + dx) (y + dy) w h s
  | CanvasElement.path p c s => CanvasElement.path p c s

/-- The corner-relative box arithmetic of the resize branch of
`handleMouseMove`, by handle id. -/
def resizeBox (handle : String) (x y w h dx dy : ℚ) : ℚ × ℚ × ℚ × ℚ :=
  if handle = "se" then (x, y, w + dx, h + dy)
  else if handle = "sw" then (x + dx, y, w - dx, h + dy)
  else if handle = "nw" then (x + dx, y + dy, w - dx, h - dy)
  else if handle = "ne" then (x, y + dy, w + dx, h - dy)
  else (x, y, w, h)

/-- `handleMouseMove` of the raw-canvas component (the cursor-styling side
effect is pure presentation and omitted).  The drag branch recomputes the
dragged element from `initialElementState` and the total delta from the
anchor and writes it through `onElementUpdate` (which does not commit);
the resize branch does the corresponding box arithmetic (circle: the
horizontal delta drives `radius + dx / 2`; text and path have no resize
branch); otherwise a drawing gesture records the current position and the
pencil appends to the current path. -/
def rawMouseMove (tool : Tool) (pos : Point) (st : RawCanvasState) : RawCanvasState :=
  if st.isDragging then
    match st.selectedIndex, st.startPos, st.initialElementState with
    | some i, some sp, some init =>
        if tool ≠ Tool.pencil then
          let moved := dragElement init (pos.x - sp.x) (pos.y - sp.y)
          { st with page := onElementUpdate i moved st.page }
        else st
    | _, _, _ => rawMouseMoveRest tool pos st
  else rawMouseMoveRest tool pos st
where
  /-- The resize and drawing branches that follow the drag branch. -/
  rawMouseMoveRest (tool : Tool) (pos : Point) (st : RawCanvasState) : RawCanvasState :=
    match st.isResizing with
    | some handle =>
        (match st.selectedIndex, st.startPos, st.initialElementState with
        | some i, some sp, some init =>
            (match init with
            | CanvasElement.rect x y w h c =>
                let r := resizeBox handle x y w h (pos.x - sp.x) (pos.y - sp.y)
                let el := CanvasElement.rect r.1 r.2.1 r.2.2.1 r.2.2.2 c
                { st with page := onElementUpdate i el st.page }
            | CanvasElement.image x y w h s =>
                let r := resizeBox handle x y w h (pos.x - sp.x) (pos.y - sp.y)
                let el := CanvasElement.image r.1 r.2.1 r.2.2.1 r.2.2.2 s
                { st with page := onElementUpdate i el st.page }
            | CanvasElement.circle x y rad c =>
                let el := CanvasElement.circle x y (rad + (pos.x - sp.x) / 2) c
                { st with page := onElementUpdate i el st.page }
            | _ => st)
        | _, _, _ => st)
    | none =>
        if st.isDrawing then
          let st1 := { st with currentPos := some pos }
          if tool = Tool.pencil then { st1 with currentPath := st1.currentPath ++ [pos] }
          else st1
        else st

/-- `handleMouseUp` of the raw-canvas component.  A drag or resize gesture
only clears the gesture state (it commits nothing to history); otherwise,
when a drawing gesture is in progress, the drawn shape is added through
`onElementAdd` with no validity check: the pencil commits the captured
path, rect commits the anchored box, circle commits with radius equal to
the Euclidean anchor distance.  `sqrt` abstracts `Math.sqrt`. -/
def rawMouseUp (sqrt : ℚ → ℚ) (tool : Tool) (color : String) (strokeWidth : ℚ)
    (st : RawCanvasState) : RawCanvasState :=
  if st.isDragging ∨ st.isResizing.isSome then
    { st with isDragging := false
              isResizing := none
              startPos := none
              initialElementState := none }
  else if st.isDrawing = false then st
  else
    let st1 := { st with isDrawing := false }
    match tool with
    | Tool.pencil =>
        let el := CanvasElement.path st1.currentPath color strokeWidth
        { st1 with page := handleAddElement el st1.page, currentPath := [],
                   startPos := none, currentPos := none }
    | Tool.rect =>
        (match st1.startPos, st1.currentPos with
        | some sp, some cp =>
            let el := CanvasElement.rect sp.x sp.y (cp.x - sp.x) (cp.y - sp.y) color
            { st1 with page := handleAddElement el st1.page,
                       startPos := none, currentPos := none }
        | _, _ => { st1 with startPos := none, currentPos := none })
    | Tool.circle =>
        (match st1.startPos, st1.currentPos with
        | some sp, some cp =>
            let rad := sqrt ((cp.x - sp.x) ^ 2 + (cp.y - sp.y) ^ 2)
            let el := CanvasElement.circle sp.x sp.y rad color
            { st1 with page := handleAddElement el st1.page,
                       startPos := none, currentPos := none }
        | _, _ => { st1 with startPos := none, currentPos := none })
    | _ => { st1 with startPos := none, currentPos := none }

/-! ## Inline text editing (raw-canvas InteractiveCanvas) -/

/-- Whitespace as removed by the JavaScript `String.prototype.trim`
(ECMA-262 WhiteSpace and LineTerminator): TAB, LF, VT, FF, CR, SPACE,
NBSP, ZWNBSP (U+FEFF), the Unicode space separators (category Zs:
U+1680, U+2000 through U+200A, U+202F, U+205F, U+3000) and the line
separators U+2028 and U+2029. -/
def isJsWhitespace (c : Char) : Bool :=
  c = ' ' ∨ c = '\t' ∨ c = '\n' ∨ c = '\r' ∨ c = '\x0b' ∨ c = '\x0c'
  ∨ c = '\u00a0' ∨ c = '\u1680'
  ∨ (0x2000 ≤ c.toNat ∧ c.toNat ≤ 0x200a)
  ∨ c = '\u2028' ∨ c = '\u2029' ∨ c = '\u202f' ∨ c = '\u205f'
  ∨ c = '\u3000' ∨ c = '\ufeff'

/-- JavaScript `trim` on a character list: drop whitespace from both
ends. -/
def jsTrimList (l : List Char) : List Char :=
  ((l.dropWhile isJsWhitespace).reverse.dropWhile isJsWhitespace).reverse

/-- JavaScript `value.trim()`. -/
def jsTrim (s : String) : String :=
  String.mk (jsTrimList s.data)

/-- The `onBlur` handler of the inline text input (also reached when Enter
blurs the input): if the trimmed buffer is truthy (a nonempty string), add
a text element with the untrimmed buffer, font size 24 and the recorded
click position through `onElementAdd`; in either case the editing session
ends. -/
def endTextEditing (currentColor : String) (et : EditingTextState)
    (st : PageState) : PageState :=
  if jsTrim et.value ≠ "" then
    handleAddElement (CanvasElement.text et.x et.y et.value 24 currentColor) st
  else st

/-! ## Konva InteractiveCanvas pointer-up validity -/

/-- The in-progress-drawing state of the Konva `InteractiveCanvas`
component relevant to its `handleMouseUp`. -/
structure KonvaState where
  isDrawing : Bool
  newShape : Option CanvasElement
deriving DecidableEq

/-- The `isValid` check of the Konva `handleMouseUp`: a rect passes with
`Math.abs(width) > 5` (the height is not inspected), a circle with
`radius > 5`, a path with `points.length > 2`; nothing else passes. -/
def konvaIsValid (el : CanvasElement) : Bool :=
  match el with
  | CanvasElement.rect _ _ w _ _ => decide (5 < |w|)
  | CanvasElement.circle _ _ r _ => decide (5 < r)
  | CanvasElement.path pts _ _ => decide (2 < pts.length)
  | _ => false

/-- The Konva `handleMouseUp`: when a drawing gesture is in progress and a
preview shape exists, add it through `onElementAdd` iff `isValid` holds;
then clear the drawing state. -/
def konvaMouseUp (ks : KonvaState) (st : PageState) : KonvaState × PageState :=
  let st2 :=
    match ks.isDrawing, ks.newShape with
    | true, some s => if konvaIsValid s then handleAddElement s st else st
    | _, _ => st
  (⟨false, none⟩, st2)

/-! ## Export pipeline (backend/server.js) -/

/-- One painting operation issued by `drawElements` on the off-screen
canvas. -/
inductive RenderOp where
  | fillRect (x y w h : ℚ) (color : String)
  | fillCircle (x y r : ℚ) (color : String)
  | fillText (content : String) (x y fontSize : ℚ) (color : String)
  | strokePath (points : List Point) (color : String) (lineWidth : ℚ)
  | drawImage (src : String) (x y w h : ℚ)
deriving DecidableEq

/-- One iteration of the `drawElements` loop: the operations painted for
the element plus the `console.error` reports it emits.  Image loading and
decoding (`loadImage`, including the base64 branch) is abstracted by the
`loadOk` oracle; the try/catch around the image branch turns a failure
into a report and no paint.  A path with fewer than 2 points is skipped;
a falsy (zero) stroke width falls back to 2 per `el.strokeWidth || 2`. -/
def renderElement (loadOk : String → Bool) (el : CanvasElement) :
    List RenderOp × List String :=
  match el with
  | CanvasElement.rect x y w h c => ([RenderOp.fillRect x y w h c], [])
  | CanvasElement.circle x y r c => ([RenderOp.fillCircle x y r c], [])
  | CanvasElement.text x y t f c => ([RenderOp.fillText t x y f c], [])
  | CanvasElement.path pts c sw =>
      if pts.length < 2 then ([], [])
      else ([RenderOp.strokePath pts c (if sw = 0 then 2 else sw)], [])
  | CanvasElement.image x y w h src =>
      if loadOk src then ([RenderOp.drawImage src x y w h], [])
      else ([], ["Failed to load image"])

/-- `drawElements` of server.js: paint the elements in order, collecting
the operations and the error reports. -/
def drawElements (loadOk : String → Bool) :
    List CanvasElement → List RenderOp × List String
  | [] => ([], [])
  | el :: rest =>
      let r := renderElement loadOk el
      let rr := drawElements loadOk rest
      (r.1 ++ rr.1, r.2 ++ rr.2)

/-- The body of the export request: the three fields the endpoint
destructures, each possibly absent. -/
structure ExportRequest where
  width : Option ℚ
  height : Option ℚ
  elements : Option (List CanvasElement)
deriving DecidableEq

/-- The observable outcome of the `/export/pdf` endpoint: either the 400
response with its JSON error body, or the streamed document carrying a
single page of the requested size with the rendered raster (given by its
painting operations) embedded, plus the server log of skipped images. -/
inductive ExportResult where
  | badRequest (error : String)
  | pdf (width height : ℚ) (ops : List RenderOp) (log : List String)
deriving DecidableEq

/-- The `/export/pdf` handler: `if (!width || !height || !elements)`
rejects with status 400 and the structured error body; JavaScript
truthiness makes an absent field and a zero number falsy, while any
elements array (even empty) is truthy.  Otherwise the handler creates the
canvas, draws the elements and streams the PDF page of exactly the
requested size. -/
def exportPdf (loadOk : String → Bool) (req : ExportRequest) : ExportResult :=
  match req.width, req.height, req.elements with
  | some w, some h, some els =>
      if w = 0 ∨ h = 0 then
        ExportResult.badRequest "Missing required fields: width, height, elements"
      else
        ExportResult.pdf w h (drawElements loadOk els).1 (drawElements loadOk els).2
  | _, _, _ =>
      ExportResult.badRequest "Missing required fields: width, height, elements"

/-! ## General lemmas about the history manager -/

theorem getD_mem {α : Type} (l : List α) (n : ℕ) (d : α) (h : n < l.length) :
    l.getD n d ∈ l := by
  rw [List.getD_eq_getElem?_getD, List.getElem?_eq_getElem h]
  exact List.getElem_mem h

theorem applyHistOp_history (op : HistOp) (st : PageState) :
    (applyHistOp op st).history = st.history := by
  cases op <;> simp only [applyHistOp, handleUndo, handleRedo] <;> split <;> rfl

theorem applyHistOp_inv (op : HistOp) (st : PageState)
    (h1 : st.historyIndex < st.history.length) (h2 : st.elements ∈ st.history) :
    (applyHistOp op st).historyIndex < (applyHistOp op st).history.length
    ∧ (applyHistOp op st).elements ∈ (applyHistOp op st).history := by
  cases op <;> simp only [applyHistOp, handleUndo, handleRedo] <;> split
  case undo.isTrue h =>
    constructor
    · show st.historyIndex - 1 < st.history.length
      omega
    · exact getD_mem st.history (st.historyIndex - 1) [] (by omega)
  case undo.isFalse h => exact ⟨h1, h2⟩
  case redo.isTrue h =>
    constructor
    · show st.historyIndex + 1 < st.history.length
      omega
    · exact getD_mem st.history (st.historyIndex + 1) [] (by omega)
  case redo.isFalse h => exact ⟨h1, h2⟩

theorem runHistOps_spec (ops : List HistOp) :
    ∀ st : PageState, st.historyIndex < st.history.length → st.elements ∈ st.history →
    (runHistOps ops st).history = st.history
    ∧ (runHistOps ops st).elements ∈ st.history := by
  induction ops with
  | nil => exact fun st h1 h2 => ⟨rfl, h2⟩
  | cons op ops ih =>
      intro st h1 h2
      obtain ⟨i1, i2⟩ := applyHistOp_inv op st h1 h2
      obtain ⟨j1, j2⟩ := ih (applyHistOp op st) i1 i2
      rw [applyHistOp_history] at j1 j2
      exact ⟨j1, j2⟩

theorem addToHistory_history (S : List CanvasElement) (st : PageState) :
    (addToHistory S st).history = st.history.take (st.historyIndex + 1) ++ [S] := rfl

theorem addToHistory_length (S : List CanvasElement) (st : PageState)
    (h : st.historyIndex < st.history.length) :
    (addToHistory S st).history.length = st.historyIndex + 2 := by
  show (st.history.take (st.historyIndex + 1) ++ [S]).length = st.historyIndex + 2
  rw [List.length_append, List.length_take]
  simp
  omega

theorem addToHistory_historyIndex (S : List CanvasElement) (st : PageState)
    (h : st.historyIndex < st.history.length) :
    (addToHistory S st).historyIndex = st.historyIndex + 1 := by
  show (st.history.take (st.historyIndex + 1) ++ [S]).length - 1 = st.historyIndex + 1
  rw [List.length_append, List.length_take]
  simp
  omega

/-- C2: when the cursor is not at the last index, commit discards all
snapshots after the cursor, appends the new Scene and moves the cursor to
the new last index; afterwards redo is impossible, and every Scene
reachable by any sequence of undo/redo requests is one of the retained
snapshots, so the discarded forward snapshots are unreachable. -/
theorem commit_truncates_forward_branch (st : PageState) (S : List CanvasElement)
    (h : st.historyIndex + 1 < st.history.length) :
    (addToHistory S st).history = st.history.take (st.historyIndex + 1) ++ [S]
    ∧ (addToHistory S st).historyIndex = (addToHistory S st).history.length - 1
    ∧ canRedo (addToHistory S st) = false
    ∧ ∀ ops : List HistOp,
        (runHistOps ops (addToHistory S st)).elements
          ∈ st.history.take (st.historyIndex + 1) ++ [S] := by
  have hlen : (addToHistory S st).history.length = st.historyIndex + 2 :=
    addToHistory_length S st (by omega)
  have hidx : (addToHistory S st).historyIndex = st.historyIndex + 1 :=
    addToHistory_historyIndex S st (by omega)
  refine ⟨rfl, rfl, ?_, ?_⟩
  · unfold canRedo
    rw [hlen, hidx]
    simp
  · intro ops
    have hmem : (addToHistory S st).elements ∈ (addToHistory S st).history := by
      show S ∈ st.history.take (st.historyIndex + 1) ++ [S]
      simp
    obtain ⟨-, h2⟩ :=
      runHistOps_spec ops (addToHistory S st) (by omega) hmem
    exact h2

/-- C2 witness: a concrete three-snapshot history with the cursor at 0;
after a commit the redo branch is gone. -/
theorem commit_truncates_forward_branch_witness :
    canRedo (addToHistory [] ⟨[], [[], [CanvasElement.rect 1 1 1 1 "r"], []], 0⟩) = false :=
  (commit_truncates_forward_branch ⟨[], [[], [CanvasElement.rect 1 1 1 1 "r"], []], 0⟩
    [] (by decide)).2.2.1

/-- C3: for every History state satisfying the cursor invariant and every
Scene S, commit then undo then redo restores S as the current Scene;
undo at cursor 0 is a no-op, and redo at the last index is a no-op. -/
theorem commit_undo_redo_roundtrip (st : PageState) (S : List CanvasElement)
    (h : st.historyIndex < st.history.length) :
    (handleRedo (handleUndo (addToHistory S st))).elements = S
    ∧ (∀ st2 : PageState, st2.historyIndex = 0 → handleUndo st2 = st2)
    ∧ (∀ st2 : PageState, st2.historyIndex = st2.history.length - 1 →
        handleRedo st2 = st2) := by
  refine ⟨?_, ?_, ?_⟩
  · have hlen : (addToHistory S st).history.length = st.historyIndex + 2 :=
      addToHistory_length S st h
    have hidx : (addToHistory S st).historyIndex = st.historyIndex + 1 :=
      addToHistory_historyIndex S st h
    have htake : (st.history.take (st.historyIndex + 1)).length = st.historyIndex + 1 := by
      rw [List.length_take]
      simp
      omega
    have hu : handleUndo (addToHistory S st)
        = { elements := (addToHistory S st).history.getD
              ((addToHistory S st).historyIndex - 1) []
            history := (addToHistory S st).history
            historyIndex := (addToHistory S st).historyIndex - 1 } := by
      unfold handleUndo
      rw [if_pos (show 0 < (addToHistory S st).historyIndex by omega)]
    rw [hu]
    unfold handleRedo
    rw [hidx]
    simp only [Nat.add_sub_cancel]
    rw [if_pos (show st.historyIndex < (addToHistory S st).history.length - 1 by omega)]
    show ((addToHistory S st).history.getD (st.historyIndex + 1) []) = S
    rw [addToHistory_history]
    rw [List.getD_append_right _ _ _ _ (by omega)]
    rw [htake]
    simp
  · intro st2 h2
    unfold handleUndo
    rw [h2]
    simp
  · intro st2 h2
    unfold handleRedo
    rw [h2]
    simp

/-- C3 witness: the roundtrip law evaluated on a concrete one-snapshot
history. -/
theorem commit_undo_redo_roundtrip_witness :
    (handleRedo (handleUndo (addToHistory [CanvasElement.rect 1 1 1 1 "r"]
      ⟨[], [[]], 0⟩))).elements = [CanvasElement.rect 1 1 1 1 "r"] :=
  (commit_undo_redo_roundtrip ⟨[], [[]], 0⟩ [CanvasElement.rect 1 1 1 1 "r"]
    (by decide)).1

/-! ## Hit-test normalization (C6) -/

theorem boxHit_normalized (pos : Point) (x y w h : ℚ) :
    boxHit pos x y w h = boxHit pos (min x (x + w)) (min y (y + h)) |w| |h| := by
  simp only [boxHit]
  rw [if_neg (not_lt.mpr (abs_nonneg w)), if_neg (not_lt.mpr (abs_nonneg h))]
  rw [abs_abs w, abs_abs h]
  rcases lt_or_le w 0 with hw | hw <;> rcases lt_or_le h 0 with hh | hh
  · rw [if_pos hw, if_pos hh, min_eq_right (by linarith), min_eq_right (by linarith)]
  · rw [if_pos hw, if_neg (not_lt.mpr hh), min_eq_right (by linarith),
      min_eq_left (by linarith)]
  · rw [if_neg (not_lt.mpr hw), if_pos hh, min_eq_left (by linarith),
      min_eq_right (by linarith)]
  · rw [if_neg (not_lt.mpr hw), if_neg (not_lt.mpr hh), min_eq_left (by linarith),
      min_eq_left (by linarith)]

/-- C6: for rectangles and images the hit test normalizes negative
width/height before comparison, so the result on any element equals the
result on the equivalent element with adjusted origin
(min x (x+w), min y (y+h)) and absolute dimensions. -/
theorem rect_image_hit_normalization (pad : ℚ) (pos : Point) (x y w h : ℚ)
    (c s : String) :
    hitElement pad pos (CanvasElement.rect x y w h c)
      = hitElement pad pos
          (CanvasElement.rect (min x (x + w)) (min y (y + h)) |w| |h| c)
    ∧ hitElement pad pos (CanvasElement.image x y w h s)
      = hitElement pad pos
          (CanvasElement.image (min x (x + w)) (min y (y + h)) |w| |h| s) :=
  ⟨boxHit_normalized pos x y w h, boxHit_normalized pos x y w h⟩

/-! ## Path hit margins (C7) -/

/-- C7 counterexample: the select and eraser tools do not share one fixed
path padding.  On the path [(0,0),(10,0)] with stroke width 2, the point
(5,5) (at distance 5 from the polyline) is hit by the select loop
(line width 2 + 10, margin 6) but missed by the eraser loop
(line width 2 + 5, margin 3.5). -/
theorem select_eraser_path_hit_differ :
    hitElement 10 ⟨5, 5⟩ (CanvasElement.path [⟨0, 0⟩, ⟨10, 0⟩] "black" 2) = true
    ∧ hitElement 5 ⟨5, 5⟩ (CanvasElement.path [⟨0, 0⟩, ⟨10, 0⟩] "black" 2) = false := by
  constructor <;>
    norm_num [hitElement, isPointInStroke, polySegs, segDistWithin, dist2]

/-- C7 amended: each tool hits a path iff the distance from the point to
some traced segment of the polyline is within half that tool's
stroke-query line width, with the select loop using padding 10 and the
eraser loop padding 5 on top of the stroke width; on every non-path
element the two loops coincide. -/
theorem path_hit_margin_characterization (pos : Point) (pts : List Point)
    (c : String) (sw : ℚ) :
    (hitElement 10 pos (CanvasElement.path pts c sw) = true ↔
      ∃ ab ∈ polySegs pts, segDistWithin pos ab.1 ab.2 ((sw + 10) / 2) = true)
    ∧ (hitElement 5 pos (CanvasElement.path pts c sw) = true ↔
      ∃ ab ∈ polySegs pts, segDistWithin pos ab.1 ab.2 ((sw + 5) / 2) = true)
    ∧ ∀ el : CanvasElement, (∀ q cc ss, el ≠ CanvasElement.path q cc ss) →
        hitElement 10 pos el = hitElement 5 pos el := by
  refine ⟨?_, ?_, ?_⟩
  · simp [hitElement, isPointInStroke, List.any_eq_true]
  · simp [hitElement, isPointInStroke, List.any_eq_true]
  · intro el hel
    cases el <;> first | rfl | exact absurd rfl (hel _ _ _)

/-- C7 witness: the two loops agree on a concrete non-path element. -/
theorem path_hit_margin_characterization_witness :
    hitElement 10 ⟨0, 0⟩ (CanvasElement.circle 0 0 1 "b")
      = hitElement 5 ⟨0, 0⟩ (CanvasElement.circle 0 0 1 "b") :=
  (path_hit_margin_characterization ⟨0, 0⟩ [] "x" 0).2.2
    (CanvasElement.circle 0 0 1 "b")
    (fun _ _ _ h => CanvasElement.noConfusion h)

/-! ## Circle resize-handle semantics (C5) -/

/-- C5: on the circle with center (100,100) and radius 50, the hit test
treats (x, y) as the center (the center itself and (51,100) hit, while
(155,110) does not although it would lie inside a circle whose top-left
corner is (100,100)), but `getResizeHandle` places no handle zone at the
center-based bounding-box corners (50,50) and (150,150) and instead
answers at (100,100) and (200,200): the resize logic treats (x, y) as the
top-left of the bounding box, contradicting the mandated center
semantics. -/
theorem circle_resize_handles_topleft_not_center :
    getResizeHandle 50 50 (CanvasElement.circle 100 100 50 "blue") = none
    ∧ getResizeHandle 150 150 (CanvasElement.circle 100 100 50 "blue") = none
    ∧ getResizeHandle 100 100 (CanvasElement.circle 100 100 50 "blue") = some "nw"
    ∧ getResizeHandle 200 200 (CanvasElement.circle 100 100 50 "blue") = some "se"
    ∧ hitElement 10 ⟨100, 100⟩ (CanvasElement.circle 100 100 50 "blue") = true
    ∧ hitElement 10 ⟨51, 100⟩ (CanvasElement.circle 100 100 50 "blue") = true
    ∧ hitElement 10 ⟨155, 110⟩ (CanvasElement.circle 100 100 50 "blue") = false := by
  refine ⟨?_, ?_, ?_, ?_, ?_, ?_, ?_⟩ <;>
    norm_num [getResizeHandle, resizeHandleOfBox, inHandleZone, HANDLE_SIZE,
      hitElement, dist2]

/-! ## The select-tool drag gesture (C1) -/

/-- A committed page with one rectangle, with the matching two-snapshot
history, and the canvas component idle. -/
def dragGestureStart : RawCanvasState :=
  ⟨⟨[CanvasElement.rect 10 10 100 100 "red"],
    [[], [CanvasElement.rect 10 10 100 100 "red"]], 1⟩,
   false, false, none, none, none, [], none, none, none⟩

/-- State after pointer-down at (50,50): the rectangle is hit, selected
and a drag begins. -/
def dragGestureDown : RawCanvasState :=
  ⟨⟨[CanvasElement.rect 10 10 100 100 "red"],
    [[], [CanvasElement.rect 10 10 100 100 "red"]], 1⟩,
   false, true, none, some ⟨50, 50⟩, none, [], none, some 0,
   some (CanvasElement.rect 10 10 100 100 "red")⟩

/-- State after the first pointer-move to (60,60). -/
def dragGestureMove1 : RawCanvasState :=
  ⟨⟨[CanvasElement.rect 20 20 100 100 "red"],
    [[], [CanvasElement.rect 10 10 100 100 "red"]], 1⟩,
   false, true, none, some ⟨50, 50⟩, none, [], none, some 0,
   some (CanvasElement.rect 10 10 100 100 "red")⟩

/-- State after the second pointer-move to (70,45): net delta (20,-5). -/
def dragGestureMove2 : RawCanvasState :=
  ⟨⟨[CanvasElement.rect 30 5 100 100 "red"],
    [[], [CanvasElement.rect 10 10 100 100 "red"]], 1⟩,
   false, true, none, some ⟨50, 50⟩, none, [], none, some 0,
   some (CanvasElement.rect 10 10 100 100 "red")⟩

/-- State after pointer-up: the gesture flags are cleared, nothing else
changes. -/
def dragGestureUp : RawCanvasState :=
  ⟨⟨[CanvasElement.rect 30 5 100 100 "red"],
    [[], [CanvasElement.rect 10 10 100 100 "red"]], 1⟩,
   false, false, none, none, none, [], none, some 0, none⟩

theorem dragGesture_step1 :
    rawMouseDown Tool.select none ⟨50, 50⟩ dragGestureStart = dragGestureDown := by
  norm_num [dragGestureStart, dragGestureDown, rawMouseDown, rawSelectHitPhase,
    topmostHit, hitElement, boxHit, List.enum, List.enumFrom, List.find?]

theorem dragGesture_step2 :
    rawMouseMove Tool.select ⟨60, 60⟩ dragGestureDown = dragGestureMove1 := by
  norm_num [dragGestureDown, dragGestureMove1, rawMouseMove, dragElement,
    onElementUpdate]
  decide

theorem dragGesture_step3 :
    rawMouseMove Tool.select ⟨70, 45⟩ dragGestureMove1 = dragGestureMove2 := by
  norm_num [dragGestureMove1, dragGestureMove2, rawMouseMove, dragElement,
    onElementUpdate]
  decide

theorem dragGesture_step4 (sqrt : ℚ → ℚ) :
    rawMouseUp sqrt Tool.select "red" 2 dragGestureMove2 = dragGestureUp := by
  norm_num [dragGestureMove2, dragGestureUp, rawMouseUp]

/-- C1: a complete select-tool drag gesture on the committed rectangle
(pointer-down at (50,50), moves to (60,60) and (70,45), pointer-up)
shifts the rectangle by the net delta (20,-5) with all other fields
unchanged and commits nothing per frame, but on pointer-up the final
Scene is NOT committed to History either: the history list and cursor are
exactly as before the gesture, with the pre-drag Scene in the last
snapshot. -/
theorem drag_gesture_moves_scene_but_commits_no_snapshot :
    (rawMouseUp (fun q => q) Tool.select "red" 2 (rawMouseMove Tool.select ⟨70, 45⟩
        (rawMouseMove Tool.select ⟨60, 60⟩
          (rawMouseDown Tool.select none ⟨50, 50⟩ dragGestureStart)))).page.elements
      = [CanvasElement.rect 30 5 100 100 "red"]
    ∧ (rawMouseMove Tool.select ⟨70, 45⟩ (rawMouseMove Tool.select ⟨60, 60⟩
        (rawMouseDown Tool.select none ⟨50, 50⟩
          dragGestureStart))).page.history = dragGestureStart.page.history
    ∧ (rawMouseUp (fun q => q) Tool.select "red" 2 (rawMouseMove Tool.select ⟨70, 45⟩
        (rawMouseMove Tool.select ⟨60, 60⟩
          (rawMouseDown Tool.select none ⟨50, 50⟩
            dragGestureStart)))).page.history = dragGestureStart.page.history
    ∧ (rawMouseUp (fun q => q) Tool.select "red" 2 (rawMouseMove Tool.select ⟨70, 45⟩
        (rawMouseMove Tool.select ⟨60, 60⟩
          (rawMouseDown Tool.select none ⟨50, 50⟩
            dragGestureStart)))).page.historyIndex = 1 := by
  rw [dragGesture_step1, dragGesture_step2, dragGesture_step3,
    dragGesture_step4 (fun q => q)]
  exact ⟨rfl, rfl, rfl, rfl⟩

/-! ## Pointer-up commit validity (C4) -/

/-- C4 counterexample: the Konva canvas commits a pointer-up rectangle of
width 10 and height 2 (the height is never checked), and the raw canvas
commits a 2 by 2 rectangle with no size check at all, both contradicting
the both-dimensions 5-unit minimum. -/
theorem thin_and_tiny_rectangles_committed :
    (konvaMouseUp ⟨true, some (CanvasElement.rect 0 0 10 2 "red")⟩ ⟨[], [[]], 0⟩).2
      = ⟨[CanvasElement.rect 0 0 10 2 "red"],
         [[], [CanvasElement.rect 0 0 10 2 "red"]], 1⟩
    ∧ (rawMouseUp (fun _ => 0) Tool.rect "red" 2
        ⟨⟨[], [[]], 0⟩, true, false, none, some ⟨0, 0⟩, some ⟨2, 2⟩, [],
         none, none, none⟩).page
      = ⟨[CanvasElement.rect 0 0 2 2 "red"],
         [[], [CanvasElement.rect 0 0 2 2 "red"]], 1⟩ := by
  constructor
  · norm_num [konvaMouseUp, konvaIsValid, handleAddElement, addToHistory]
  · norm_num [rawMouseUp, handleAddElement, addToHistory]

/-- C4 amended: the Konva canvas commits the in-progress shape on
pointer-up iff the code's check passes, which requires |width| > 5 for a
rectangle (height unchecked), radius > 5 for a circle, and more than 2
points for a path; the raw canvas commits the drawn rectangle
unconditionally on pointer-up. -/
theorem pointer_up_commit_policy :
    (∀ (ks : KonvaState) (ps : PageState) (s : CanvasElement),
      ks.isDrawing = true → ks.newShape = some s →
      (konvaMouseUp ks ps).2 = (if konvaIsValid s then handleAddElement s ps else ps))
    ∧ (∀ s : CanvasElement, konvaIsValid s = true ↔
        ((∃ x y w h c, s = CanvasElement.rect x y w h c ∧ 5 < |w|)
        ∨ (∃ x y r c, s = CanvasElement.circle x y r c ∧ 5 < r)
        ∨ (∃ pts c sw, s = CanvasElement.path pts c sw ∧ 2 < pts.length)))
    ∧ (∀ (sqrt : ℚ → ℚ) (st : RawCanvasState) (color : String) (sw : ℚ)
        (sp cp : Point),
        st.isDragging = false → st.isResizing = none → st.isDrawing = true →
        st.startPos = some sp → st.currentPos = some cp →
        (rawMouseUp sqrt Tool.rect color sw st).page
          = handleAddElement
              (CanvasElement.rect sp.x sp.y (cp.x - sp.x) (cp.y - sp.y) color)
              st.page) := by
  refine ⟨?_, ?_, ?_⟩
  · intro ks ps s h1 h2
    simp [konvaMouseUp, h1, h2]
  · intro s
    cases s <;> simp [konvaIsValid] <;> aesop
  · intro sqrt st color sw sp cp h1 h2 h3 h4 h5
    simp [rawMouseUp, h1, h2, h3, h4, h5]

/-- C4 witness: the amended commit policy evaluated on a concrete Konva
state (a circle of radius 9 passes the check) and a concrete raw-canvas
state. -/
theorem pointer_up_commit_policy_witness :
    (konvaMouseUp ⟨true, some (CanvasElement.circle 0 0 9 "b")⟩ ⟨[], [[]], 0⟩).2
      = (if konvaIsValid (CanvasElement.circle 0 0 9 "b")
          then handleAddElement (CanvasElement.circle 0 0 9 "b") ⟨[], [[]], 0⟩
          else ⟨[], [[]], 0⟩)
    ∧ (rawMouseUp (fun _ => 0) Tool.rect "r" 1
        ⟨⟨[], [[]], 0⟩, true, false, none, some ⟨0, 0⟩, some ⟨7, 8⟩, [],
         none, none, none⟩).page
      = handleAddElement (CanvasElement.rect 0 0 7 8 "r") ⟨[], [[]], 0⟩ := by
  constructor
  · exact pointer_up_commit_policy.1 ⟨true, some (CanvasElement.circle 0 0 9 "b")⟩
      ⟨[], [[]], 0⟩ (CanvasElement.circle 0 0 9 "b") rfl rfl
  · have h := pointer_up_commit_policy.2.2 (fun _ => 0)
      ⟨⟨[], [[]], 0⟩, true, false, none, some ⟨0, 0⟩, some ⟨7, 8⟩, [],
       none, none, none⟩ "r" 1 ⟨0, 0⟩ ⟨7, 8⟩ rfl rfl rfl rfl rfl
    simpa using h

/-! ## Export validation (C8) -/

/-- C8 counterexample: the request with width 0, height 600 and an empty
elements array has all three fields present, yet the endpoint rejects it
with the 400 body, because the JavaScript truthiness test `!width` also
fires on the number 0. -/
theorem export_rejects_present_zero_width :
    (ExportRequest.mk (some 0) (some 600) (some [])).width.isSome = true
    ∧ (ExportRequest.mk (some 0) (some 600) (some [])).height.isSome = true
    ∧ (ExportRequest.mk (some 0) (some 600) (some [])).elements.isSome = true
    ∧ exportPdf (fun _ => true) ⟨some 0, some 600, some []⟩
      = ExportResult.badRequest "Missing required fields: width, height, elements" := by
  refine ⟨rfl, rfl, rfl, ?_⟩
  norm_num [exportPdf]

/-- C8 amended: a request missing width, height or elements is rejected
with status 400 and the structured error body and no document is
produced; a present but zero (falsy) width or height is rejected the same
way; a request whose width and height are present and nonzero and whose
elements field is present proceeds to rendering and streams the
document. -/
theorem export_validation_behavior (f : String → Bool) (req : ExportRequest) :
    ((req.width = none ∨ req.height = none ∨ req.elements = none) →
      exportPdf f req
        = ExportResult.badRequest "Missing required fields: width, height, elements")
    ∧ ((req.width = some 0 ∨ req.height = some 0) →
      exportPdf f req
        = ExportResult.badRequest "Missing required fields: width, height, elements")
    ∧ (∀ (w h : ℚ) (els : List CanvasElement),
        req.width = some w → req.height = some h → req.elements = some els →
        w ≠ 0 → h ≠ 0 →
        exportPdf f req
          = ExportResult.pdf w h (drawElements f els).1 (drawElements f els).2) := by
  obtain ⟨rw0, rh0, re0⟩ := req
  refine ⟨?_, ?_, ?_⟩
  · intro hmiss
    cases rw0 <;> cases rh0 <;> cases re0 <;> simp_all [exportPdf]
  · intro hzero
    cases rw0 <;> cases rh0 <;> cases re0 <;> simp_all [exportPdf]
  · intro w h els h1 h2 h3 hw hh
    simp only at h1 h2 h3
    subst h1
    subst h2
    subst h3
    simp [exportPdf, hw, hh]

/-- C8 witness: the validation behavior evaluated on a concrete request
with elements omitted and on a concrete complete request. -/
theorem export_validation_behavior_witness :
    exportPdf (fun _ => true) ⟨some 800, some 600, none⟩
      = ExportResult.badRequest "Missing required fields: width, height, elements"
    ∧ exportPdf (fun _ => true) ⟨some 800, some 600, some []⟩
      = ExportResult.pdf 800 600
          (drawElements (fun _ => true) []).1 (drawElements (fun _ => true) []).2 := by
  constructor
  · exact (export_validation_behavior (fun _ => true)
      ⟨some 800, some 600, none⟩).1 (Or.inr (Or.inr rfl))
  · exact (export_validation_behavior (fun _ => true)
      ⟨some 800, some 600, some []⟩).2.2 800 600 [] rfl rfl rfl
      (by norm_num) (by norm_num)

/-! ## Failed-image skipping (C9) -/

theorem drawElements_append (f : String → Bool) (l1 l2 : List CanvasElement) :
    drawElements f (l1 ++ l2)
      = ((drawElements f l1).1 ++ (drawElements f l2).1,
         (drawElements f l1).2 ++ (drawElements f l2).2) := by
  induction l1 with
  | nil => simp [drawElements]
  | cons e l ih => simp [drawElements, ih]

/-- C9: when an image source fails to load, rendering skips exactly that
element and logs the failure report, every element before and after it is
still painted, and an export of the scene (with valid dimensions) still
streams a document rather than failing. -/
theorem failed_image_skipped_render_continues (f : String → Bool)
    (pre post : List CanvasElement) (x y w h : ℚ) (src : String)
    (hf : f src = false) :
    (drawElements f (pre ++ CanvasElement.image x y w h src :: post)).1
      = (drawElements f pre).1 ++ (drawElements f post).1
    ∧ (drawElements f (pre ++ CanvasElement.image x y w h src :: post)).2
      = (drawElements f pre).2 ++ "Failed to load image" :: (drawElements f post).2
    ∧ ∀ (wq hq : ℚ), wq ≠ 0 → hq ≠ 0 →
        exportPdf f ⟨some wq, some hq,
            some (pre ++ CanvasElement.image x y w h src :: post)⟩
          = ExportResult.pdf wq hq
              ((drawElements f pre).1 ++ (drawElements f post).1)
              ((drawElements f pre).2
                ++ "Failed to load image" :: (drawElements f post).2) := by
  have mid : drawElements f (CanvasElement.image x y w h src :: post)
      = ((drawElements f post).1, "Failed to load image" :: (drawElements f post).2) := by
    simp [drawElements, renderElement, hf]
  have key := drawElements_append f pre (CanvasElement.image x y w h src :: post)
  rw [mid] at key
  refine ⟨?_, ?_, ?_⟩
  · rw [key]
  · rw [key]
  · intro wq hq hwq hhq
    simp [exportPdf, hwq, hhq, key]

/-- C9 witness: a two-element scene around a failing image; the painted
operations are those of the rectangle and the circle only. -/
theorem failed_image_skipped_render_continues_witness :
    (drawElements (fun _ => false)
        ([CanvasElement.rect 0 0 1 1 "r"]
          ++ CanvasElement.image 5 5 2 2 "u" :: [CanvasElement.circle 9 9 3 "b"])).1
      = (drawElements (fun _ => false) [CanvasElement.rect 0 0 1 1 "r"]).1
        ++ (drawElements (fun _ => false) [CanvasElement.circle 9 9 3 "b"]).1 :=
  (failed_image_skipped_render_continues (fun _ => false)
    [CanvasElement.rect 0 0 1 1 "r"] [CanvasElement.circle 9 9 3 "b"]
    5 5 2 2 "u" rfl).1

/-! ## Inline text commit (C10) -/

theorem jsTrimList_eq_nil_iff (l : List Char) :
    jsTrimList l = [] ↔ ∀ c ∈ l, isJsWhitespace c = true := by
  unfold jsTrimList
  rw [List.reverse_eq_nil_iff, List.dropWhile_eq_nil_iff]
  constructor
  · intro hl c hc
    have hsplit := List.takeWhile_append_dropWhile isJsWhitespace l
    rw [← hsplit] at hc
    rcases List.mem_append.mp hc with hc1 | hc1
    · exact List.mem_takeWhile_imp hc1
    · exact hl c (List.mem_reverse.mpr hc1)
  · intro hws c hc
    have hdrop : List.dropWhile isJsWhitespace l = [] :=
      List.dropWhile_eq_nil_iff.mpr hws
    rw [hdrop] at hc
    simp at hc

theorem jsTrim_eq_empty_iff (s : String) :
    jsTrim s = "" ↔ ∀ c ∈ s.data, isJsWhitespace c = true := by
  constructor
  · intro h
    exact (jsTrimList_eq_nil_iff s.data).mp (congrArg String.data h)
  · intro h
    exact congrArg String.mk ((jsTrimList_eq_nil_iff s.data).mpr h)

/-- C10: ending an inline text session with an empty or all-whitespace
buffer changes nothing (no Text element, Scene and History untouched),
while a buffer with some non-whitespace character commits a Text element
carrying the entered content, font size 24 and the click position as a
new History snapshot. -/
theorem text_commit_iff_nonwhitespace (color : String) (et : EditingTextState)
    (ps : PageState) :
    ((∀ c ∈ et.value.data, isJsWhitespace c = true) →
      endTextEditing color et ps = ps)
    ∧ ((∃ c ∈ et.value.data, isJsWhitespace c = false) →
        endTextEditing color et ps
          = handleAddElement (CanvasElement.text et.x et.y et.value 24 color) ps
        ∧ (endTextEditing color et ps).elements
          = ps.elements ++ [CanvasElement.text et.x et.y et.value 24 color]
        ∧ (endTextEditing color et ps).history
          = ps.history.take (ps.historyIndex + 1)
            ++ [ps.elements ++ [CanvasElement.text et.x et.y et.value 24 color]]) := by
  constructor
  · intro hws
    unfold endTextEditing
    rw [if_neg (not_not_intro ((jsTrim_eq_empty_iff et.value).mpr hws))]
  · rintro ⟨c, hc, hcw⟩
    have hne : jsTrim et.value ≠ "" := by
      intro h
      have := (jsTrim_eq_empty_iff et.value).mp h c hc
      rw [hcw] at this
      exact Bool.false_ne_true this
    unfold endTextEditing
    rw [if_pos hne]
    exact ⟨rfl, rfl, rfl⟩

/-- C10 witness: an ASCII-space buffer and a no-break-space (U+00A0)
buffer both commit nothing, while the buffer "hi" commits the Text
element, evaluated on concrete states. -/
theorem text_commit_iff_nonwhitespace_witness :
    endTextEditing "k" ⟨3, 4, "  "⟩ ⟨[], [[]], 0⟩ = ⟨[], [[]], 0⟩
    ∧ endTextEditing "k" ⟨3, 4, "\u00a0"⟩ ⟨[], [[]], 0⟩ = ⟨[], [[]], 0⟩
    ∧ (endTextEditing "k" ⟨3, 4, "hi"⟩ ⟨[], [[]], 0⟩).elements
      = [] ++ [CanvasElement.text 3 4 "hi" 24 "k"] := by
  refine ⟨?_, ?_, ?_⟩
  · exact (text_commit_iff_nonwhitespace "k" ⟨3, 4, "  "⟩ ⟨[], [[]], 0⟩).1 (by decide)
  · exact (text_commit_iff_nonwhitespace "k" ⟨3, 4, "\u00a0"⟩ ⟨[], [[]], 0⟩).1
      (by decide)
  · exact ((text_commit_iff_nonwhitespace "k" ⟨3, 4, "hi"⟩ ⟨[], [[]], 0⟩).2
      ⟨'h', by decide, by decide⟩).2.1

end CanvasBuilder
